import Mathlib

/-!
Shallow embedding of the ASTERIX navigation coordination core
(crates/asterix-core/src/lib.rs and crates/asterix-browser/src/lib.rs).

Modelling conventions:
* `u64` counters are natural numbers reduced modulo `2 ^ 64` where the source
  performs wrapping arithmetic (`*counter += 1` on a `u64`).
* `url::Url` is opaque: only its string form (`to_string`) matters here, so a
  `Url` is a wrapper around that string form.
* `chrono::DateTime<Utc>` is an opaque timestamp, modelled as `Nat`.
* Library boundaries that the source calls but does not define are passed in
  as function parameters: the scraper title extraction
  (`document.select("title").next().and_then(|e| e.text().next())`) is a
  parameter `ft : String → Option String`; `http::HeaderValue::to_str` is a
  parameter `hdr : List Nat → Option String`; `String::from_utf8` is a
  parameter `utf8 : List Nat → Option String`.  Theorems quantify over these,
  so they hold for the actual library implementations.
* The network transport (`reqwest`) is modelled by a `TransportOutcome` input:
  `send()` failing, `bytes()` failing, or success with status, raw
  Content-Type header bytes and raw body bytes.
* The tokio oneshot channel backing `NavigationJob` is modelled by its
  documented state machine: pending, value sent, or closed; receiving the
  value closes the channel.
-/

def U64_MOD : Nat := 2 ^ 64

/-- Identifier for a logical browser tab (`TabId(u64)` in the source). -/
structure TabId where
  val : Nat
deriving DecidableEq, Repr

/-- Source `TabId::next`: returns the current counter as the fresh id and
bumps the counter (wrapping `u64` increment). -/
def TabId.next (counter : Nat) : TabId × Nat :=
  (TabId.mk counter, (counter + 1) % U64_MOD)

/-- Opaque model of `url::Url`; `toStr` is `Url::to_string()`. -/
structure Url where
  toStr : String
deriving DecidableEq, Repr

/-- Opaque model of `chrono::DateTime<Utc>`. -/
abbrev Timestamp := Nat

/-- Source `PageRequest`. -/
structure PageRequest where
  tab : TabId
  url : Url
deriving DecidableEq, Repr

/-- Source `PageResponse`. -/
structure PageResponse where
  url : Url
  status : Nat
  mime_type : Option String
  title : Option String
  body : String
  received_at : Timestamp
deriving DecidableEq, Repr

/-- Source `TabSnapshot`. -/
structure TabSnapshot where
  id : TabId
  title : String
  url : Option Url
  last_loaded : Option Timestamp
deriving DecidableEq, Repr

/-- Source `BrowserState` (the data behind the `RwLock`). -/
structure BrowserState where
  next_tab_id : Nat
  tabs : List TabSnapshot
deriving DecidableEq, Repr

/-- `BrowserState::default()`. -/
def browserStateDefault : BrowserState :=
  BrowserState.mk 0 []

/-- Source `BrowserError`; the `Network` payload is the opaque underlying
`reqwest::Error` cause, modelled as a string. -/
inductive BrowserError where
  | Network (cause : String)
  | InvalidBody
  | Cancelled
deriving DecidableEq, Repr

/-- Source `BrowserCore::create_tab`: allocates the next id, appends a fresh
snapshot with no url and no last_loaded, returns the snapshot. -/
def create_tab (title : String) (s : BrowserState) : TabSnapshot × BrowserState :=
  let idc := TabId.next s.next_tab_id
  let snapshot := TabSnapshot.mk idc.fst title none none
  (snapshot, BrowserState.mk idc.snd (s.tabs ++ [snapshot]))

/-- Source `BrowserCore::snapshot_tabs`: clones the tab list. -/
def snapshot_tabs (s : BrowserState) : List TabSnapshot :=
  s.tabs

/-- Model of Rust `str::starts_with` at the character level. -/
def strStartsWith (s p : String) : Bool :=
  s.data.take p.data.length == p.data

/-- Model of Rust `str::trim`: drop leading and trailing whitespace. -/
def strTrim (s : String) : String :=
  String.mk (((s.data.dropWhile Char.isWhitespace).reverse.dropWhile Char.isWhitespace).reverse)

/-- Model of Rust `str::is_empty`. -/
def strIsEmpty (s : String) : Bool :=
  s.data.isEmpty

/-- The mime test in `derive_title`: a mime type is present and does not
start with `text/html`. -/
def mimeForcesUrlTitle (mime_type : Option String) : Bool :=
  match mime_type with
  | some mime => !(strStartsWith mime "text/html")
  | none => false

/-- Source `derive_title`, parameterised by the scraper boundary `ft`
(first text node of the first `<title>` element of the parsed document;
`Selector::parse("title")` always succeeds on this constant selector). -/
def derive_title (ft : String → Option String) (page : PageResponse) : Option String :=
  if mimeForcesUrlTitle page.mime_type then
    some page.url.toStr
  else
    Option.filter (fun t => !(strIsEmpty t)) (Option.map strTrim (ft page.body))

/-- Rewrites the first element satisfying `p` (source
`iter_mut().find(..)` followed by in-place mutation). -/
def updateFirst (p : TabSnapshot → Bool) (f : TabSnapshot → TabSnapshot) : List TabSnapshot → List TabSnapshot
  | [] => []
  | x :: xs => if p x then f x :: xs else x :: updateFirst p f xs

/-- Source `BrowserCore::update_tab_after_fetch`: on the first snapshot whose
id matches, set url and last_loaded from the page and replace the title by the
derived title, keeping the old title when none is derived. -/
def update_tab_after_fetch (ft : String → Option String) (tab : TabId) (page : PageResponse) (s : BrowserState) : BrowserState :=
  BrowserState.mk s.next_tab_id
    (updateFirst (fun snap => snap.id == tab)
      (fun snap =>
        TabSnapshot.mk snap.id ((derive_title ft page).getD snap.title)
          (some page.url) (some page.received_at))
      s.tabs)

/-- Outcome of the transport layer for one GET: `send().await` fails,
`bytes().await` fails, or both succeed yielding status, the raw bytes of the
Content-Type header when present, and the raw body bytes. -/
inductive TransportOutcome where
  | sendErr (cause : String)
  | bytesErr (status : Nat) (contentType : Option (List Nat)) (cause : String)
  | ok (status : Nat) (contentType : Option (List Nat)) (body : List Nat)
deriving DecidableEq, Repr

/-- Source `BrowserCore::fetch_page`.  `ft`, `hdr`, `utf8` are the library
boundaries (scraper title extraction, `HeaderValue::to_str`,
`String::from_utf8`); `outcome` is what the transport returned and `now` is
`Utc::now()`.  Returns the result together with the registry state after the
call. -/
def fetch_page (ft : String → Option String) (hdr : List Nat → Option String)
    (utf8 : List Nat → Option String) (request : PageRequest)
    (outcome : TransportOutcome) (now : Timestamp) (s : BrowserState) :
    Except BrowserError PageResponse × BrowserState :=
  match outcome with
  | TransportOutcome.sendErr cause => (Except.error (BrowserError.Network cause), s)
  | TransportOutcome.bytesErr _ _ cause => (Except.error (BrowserError.Network cause), s)
  | TransportOutcome.ok status contentType bytes =>
    let mime_type := contentType.bind hdr
    match utf8 bytes with
    | none => (Except.error BrowserError.InvalidBody, s)
    | some body =>
      let page := PageResponse.mk request.url status mime_type none body now
      (Except.ok page, update_tab_after_fetch ft request.tab page s)

/-- Source `RuntimeCommand` (the oneshot sender paired with each `Navigate`
is modelled separately, at the channel level). -/
inductive RuntimeCommand where
  | Navigate (request : PageRequest)
  | Shutdown
deriving DecidableEq, Repr

/-- Source supervisor loop body in `BrowserRuntime::new`: receive commands in
queue order; a `Navigate` awaits `fetch_page` to completion (threading the
registry state) and forwards the result to its paired sender; `Shutdown`
breaks out of the loop.  `net` is the abstract network giving each request its
transport outcome and arrival time.  Returns the (request, result) pairs
delivered to the paired senders, in processing order, with the final registry
state. -/
def runLoop (ft : String → Option String) (hdr : List Nat → Option String)
    (utf8 : List Nat → Option String)
    (net : PageRequest → TransportOutcome × Timestamp) (s : BrowserState) :
    List RuntimeCommand → List (PageRequest × Except BrowserError PageResponse) × BrowserState
  | [] => ([], s)
  | RuntimeCommand.Navigate req :: rest =>
    let o := net req
    let r := fetch_page ft hdr utf8 req o.fst o.snd s
    let k := runLoop ft hdr utf8 net r.snd rest
    ((req, r.fst) :: k.fst, k.snd)
  | RuntimeCommand.Shutdown :: _ => ([], s)

/-- State machine of a tokio oneshot channel as observed by its receiver:
no value yet, a value sent and not yet taken, or closed (sender dropped
without sending, or value already taken). -/
inductive OneshotState where
  | pending
  | sent (v : Except BrowserError PageResponse)
  | closed
deriving Repr

/-- Poll errors of `oneshot::Receiver::try_recv`. -/
inductive TryRecvError where
  | Empty
  | Closed
deriving DecidableEq, Repr

/-- Model of `oneshot::Receiver::try_recv`: taking the sent value closes the
channel; polling a closed channel keeps it closed; polling a pending channel
leaves it pending. -/
def tryRecv (st : OneshotState) : Except TryRecvError (Except BrowserError PageResponse) × OneshotState :=
  match st with
  | OneshotState.pending => (Except.error TryRecvError.Empty, OneshotState.pending)
  | OneshotState.sent v => (Except.ok v, OneshotState.closed)
  | OneshotState.closed => (Except.error TryRecvError.Closed, OneshotState.closed)

/-- Source `NavigationJob`: wraps the receiving end of the oneshot channel. -/
structure NavigationJob where
  receiver : OneshotState
deriving Repr

/-- Source `NavigationJob::try_complete`: non-blocking poll translating
`try_recv` results (`Empty` → still pending, `Closed` → `Cancelled`). -/
def NavigationJob.try_complete (job : NavigationJob) : Option (Except BrowserError PageResponse) × NavigationJob :=
  match tryRecv job.receiver with
  | (Except.ok v, st) => (some v, NavigationJob.mk st)
  | (Except.error TryRecvError.Empty, st) => (none, NavigationJob.mk st)
  | (Except.error TryRecvError.Closed, st) => (some (Except.error BrowserError.Cancelled), NavigationJob.mk st)

/-- State of the unbounded mpsc command channel: the queued commands and
whether the receiving side has been dropped (the supervisor loop exited). -/
structure MpscState where
  queue : List RuntimeCommand
  receiverClosed : Bool
deriving DecidableEq, Repr

/-- Model of `mpsc::UnboundedSender::send`: fails exactly when the receiver
has been dropped, otherwise appends to the queue. -/
def mpscSend (st : MpscState) (c : RuntimeCommand) : Except Unit MpscState :=
  if st.receiverClosed then Except.error ()
  else Except.ok (MpscState.mk (st.queue ++ [c]) st.receiverClosed)

/-- The submission error of `request_navigation`
(`anyhow!("browser runtime is no longer running")`). -/
inductive SubmissionError where
  | runtimeStopped
deriving DecidableEq, Repr

/-- Combined state visible to a `BrowserHandle`: the shared registry and the
command channel to the supervisor loop. -/
structure HandleState where
  registry : BrowserState
  channel : MpscState
deriving DecidableEq, Repr

/-- Source `BrowserHandle::request_navigation`: build the oneshot channel and
the request, try to enqueue a `Navigate` command; on send failure return the
submission error (touching nothing), otherwise return the fresh job. -/
def request_navigation (hs : HandleState) (tab : TabId) (url : Url) : Except SubmissionError NavigationJob × HandleState :=
  let request := PageRequest.mk tab url
  match mpscSend hs.channel (RuntimeCommand.Navigate request) with
  | Except.error _ => (Except.error SubmissionError.runtimeStopped, hs)
  | Except.ok ch => (Except.ok (NavigationJob.mk OneshotState.pending), HandleState.mk hs.registry ch)

/-- Runs a sequence of `create_tab` calls, collecting the returned ids. -/
def runCreates (titles : List String) (s : BrowserState) : List TabId × BrowserState :=
  match titles with
  | [] => ([], s)
  | t :: ts =>
    ((create_tab t s).fst.id :: (runCreates ts (create_tab t s).snd).fst,
      (runCreates ts (create_tab t s).snd).snd)

/-! ### Helper lemmas about `updateFirst` -/

theorem updateFirst_length (p : TabSnapshot → Bool) (f : TabSnapshot → TabSnapshot)
    (l : List TabSnapshot) : (updateFirst p f l).length = l.length := by
  induction l with
  | nil => rfl
  | cons x xs ih =>
    cases hx : p x with
    | true => simp [updateFirst, hx]
    | false => simp [updateFirst, hx, ih]

theorem updateFirst_map_title (p : TabSnapshot → Bool) (f : TabSnapshot → TabSnapshot)
    (hf : ∀ x, (f x).title = x.title) (l : List TabSnapshot) :
    List.map TabSnapshot.title (updateFirst p f l) = List.map TabSnapshot.title l := by
  induction l with
  | nil => rfl
  | cons x xs ih =>
    cases hx : p x with
    | true => simp [updateFirst, hx, hf]
    | false => simp [updateFirst, hx, ih]

theorem mem_updateFirst (p : TabSnapshot → Bool) (f : TabSnapshot → TabSnapshot)
    (l : List TabSnapshot) (x : TabSnapshot) (hx : x ∈ updateFirst p f l) :
    x ∈ l ∨ ∃ y, y ∈ l ∧ p y = true ∧ x = f y := by
  induction l with
  | nil => simp [updateFirst] at hx
  | cons a as ih =>
    cases ha : p a with
    | true =>
      simp only [updateFirst, ha, if_pos, List.mem_cons] at hx
      rcases hx with h | h
      · exact Or.inr ⟨a, List.mem_cons_self a as, ha, h⟩
      · exact Or.inl (List.mem_cons_of_mem _ h)
    | false =>
      simp only [updateFirst, ha, Bool.false_eq_true, if_neg, List.mem_cons,
        not_false_eq_true] at hx
      rcases hx with h | h
      · exact Or.inl (h ▸ List.mem_cons_self a as)
      · rcases ih h with h1 | ⟨y, hy, hpy, hxy⟩
        · exact Or.inl (List.mem_cons_of_mem _ h1)
        · exact Or.inr ⟨y, List.mem_cons_of_mem _ hy, hpy, hxy⟩

/-! ### Claim theorems: jobs and submission -/

/-- C3: `NavigationJob::try_complete` never blocks: it returns `none` while
the oneshot channel is still pending, returns the sent fetch result once the
runtime has sent one, and returns `some (error Cancelled)` when the sender
side was dropped without a reply, instead of staying pending forever. -/
theorem try_complete_nonblocking_trichotomy :
    ((NavigationJob.mk OneshotState.pending).try_complete.fst = none)
    ∧ (∀ v, (NavigationJob.mk (OneshotState.sent v)).try_complete.fst = some v)
    ∧ ((NavigationJob.mk OneshotState.closed).try_complete.fst
        = some (Except.error BrowserError.Cancelled)) :=
  ⟨rfl, fun _ => rfl, rfl⟩

/-- C10: once a poll has resolved (returned `some`), every later poll on that
job returns `some (error Cancelled)`: the page response is never delivered
twice and repeated polling neither blocks nor panics. -/
theorem try_complete_after_resolution_cancelled (job : NavigationJob)
    (r : Except BrowserError PageResponse) (h : job.try_complete.fst = some r) :
    job.try_complete.snd.try_complete.fst = some (Except.error BrowserError.Cancelled) := by
  cases job with
  | mk st =>
    cases st with
    | pending => simp [NavigationJob.try_complete, tryRecv] at h
    | sent v => rfl
    | closed => rfl

/-- Witness for C10: a job whose channel holds a sent result resolves once,
and the following poll yields the cancellation error. -/
theorem try_complete_after_resolution_cancelled_witness :
    (NavigationJob.mk (OneshotState.sent (Except.error BrowserError.InvalidBody))).try_complete.snd.try_complete.fst
      = some (Except.error BrowserError.Cancelled) :=
  try_complete_after_resolution_cancelled
    (NavigationJob.mk (OneshotState.sent (Except.error BrowserError.InvalidBody)))
    (Except.error BrowserError.InvalidBody) rfl

/-- C4: after the runtime has stopped (the command receiver was dropped),
`request_navigation` fails synchronously with the submission error and the
handle state — registry and command queue — is unchanged: no job is created,
no command is enqueued, no network request is issued. -/
theorem request_navigation_after_stop_fails_fast (hs : HandleState) (tab : TabId)
    (url : Url) (h : hs.channel.receiverClosed = true) :
    (request_navigation hs tab url).fst = Except.error SubmissionError.runtimeStopped
    ∧ (request_navigation hs tab url).snd = hs := by
  constructor <;> simp [request_navigation, mpscSend, h]

/-- Witness for C4 on a concrete stopped runtime. -/
theorem request_navigation_after_stop_fails_fast_witness :
    (request_navigation (HandleState.mk browserStateDefault (MpscState.mk [] true))
        (TabId.mk 0) (Url.mk "https://example.test/ok")).fst
      = Except.error SubmissionError.runtimeStopped :=
  (request_navigation_after_stop_fails_fast
      (HandleState.mk browserStateDefault (MpscState.mk [] true))
      (TabId.mk 0) (Url.mk "https://example.test/ok") rfl).left

/-! ### Claim theorems: fetch_page error handling and response shape -/

/-- C2: when `fetch_page` fails — with `Network` on transport failure (the
initial send or the body streaming), or with `InvalidBody` when the body
bytes do not decode as UTF-8 — the registry state is returned completely
unchanged: no tab's url, last_loaded or title is modified. -/
theorem fetch_page_failure_leaves_registry_unchanged (ft : String → Option String)
    (hdr utf8 : List Nat → Option String) (req : PageRequest)
    (outcome : TransportOutcome) (now : Timestamp) (s : BrowserState)
    (e : BrowserError)
    (h : (fetch_page ft hdr utf8 req outcome now s).fst = Except.error e) :
    (fetch_page ft hdr utf8 req outcome now s).snd = s
    ∧ (∀ cause, outcome = TransportOutcome.sendErr cause → e = BrowserError.Network cause)
    ∧ (∀ st ct cause, outcome = TransportOutcome.bytesErr st ct cause →
        e = BrowserError.Network cause)
    ∧ (∀ st ct bytes, outcome = TransportOutcome.ok st ct bytes →
        utf8 bytes = none ∧ e = BrowserError.InvalidBody) := by
  cases outcome with
  | sendErr cause =>
    have he : e = BrowserError.Network cause := by
      simp [fetch_page] at h
      exact h.symm
    refine ⟨rfl, ?_, ?_, ?_⟩
    · intro c hc
      cases hc
      exact he
    · intro a b c hc
      simp at hc
    · intro a b c hc
      simp at hc
  | bytesErr st0 ct0 cause =>
    have he : e = BrowserError.Network cause := by
      simp [fetch_page] at h
      exact h.symm
    refine ⟨rfl, ?_, ?_, ?_⟩
    · intro c hc
      simp at hc
    · intro a b c hc
      cases hc
      exact he
    · intro a b c hc
      simp at hc
  | ok status ct bytes =>
    cases hu : utf8 bytes with
    | none =>
      have he : e = BrowserError.InvalidBody := by
        simp [fetch_page, hu] at h
        exact h.symm
      refine ⟨?_, ?_, ?_, ?_⟩
      · simp [fetch_page, hu]
      · intro c hc
        simp at hc
      · intro a b c hc
        simp at hc
      · intro a b c hc
        cases hc
        exact ⟨hu, he⟩
    | some body =>
      simp [fetch_page, hu] at h

/-- Witness for C2: a body that fails UTF-8 decoding under a concrete decoder
leaves the default registry untouched. -/
theorem fetch_page_failure_leaves_registry_unchanged_witness :
    (fetch_page (fun _ => none) (fun _ => none) (fun _ => none)
        (PageRequest.mk (TabId.mk 0) (Url.mk "https://example.test/ok"))
        (TransportOutcome.ok 200 none [255]) 0 browserStateDefault).snd
      = browserStateDefault :=
  (fetch_page_failure_leaves_registry_unchanged (fun _ => none) (fun _ => none)
      (fun _ => none) (PageRequest.mk (TabId.mk 0) (Url.mk "https://example.test/ok"))
      (TransportOutcome.ok 200 none [255]) 0 browserStateDefault
      BrowserError.InvalidBody rfl).left

/-- C8: every `PageResponse` returned by `fetch_page` has `title = none`; the
derived title is applied only to the tab record matching the request — the
registry keeps its length, and any post-state tab whose id differs from the
request's tab was already present in the pre-state. -/
theorem fetch_page_title_left_empty (ft : String → Option String)
    (hdr utf8 : List Nat → Option String) (req : PageRequest)
    (outcome : TransportOutcome) (now : Timestamp) (s : BrowserState)
    (page : PageResponse)
    (h : (fetch_page ft hdr utf8 req outcome now s).fst = Except.ok page) :
    page.title = none
    ∧ (fetch_page ft hdr utf8 req outcome now s).snd.tabs.length = s.tabs.length
    ∧ ∀ snap, snap ∈ (fetch_page ft hdr utf8 req outcome now s).snd.tabs →
        snap.id ≠ req.tab → snap ∈ s.tabs := by
  cases outcome with
  | sendErr cause => simp [fetch_page] at h
  | bytesErr a b cause => simp [fetch_page] at h
  | ok status ct bytes =>
    cases hu : utf8 bytes with
    | none => simp [fetch_page, hu] at h
    | some body =>
      have hp : page = PageResponse.mk req.url status (ct.bind hdr) none body now := by
        simp [fetch_page, hu] at h
        exact h.symm
      refine ⟨?_, ?_, ?_⟩
      · rw [hp]
      · simp [fetch_page, hu, update_tab_after_fetch, updateFirst_length]
      · intro snap hmem hne
        simp only [fetch_page, hu, update_tab_after_fetch] at hmem
        rcases mem_updateFirst _ _ _ _ hmem with h1 | ⟨y, hy, hpy, hxy⟩
        · exact h1
        · exfalso
          apply hne
          rw [hxy]
          simpa using hpy

/-- Witness for C8: a concrete successful fetch returns a response whose
title field is `none`. -/
theorem fetch_page_title_left_empty_witness :
    (PageResponse.mk (Url.mk "https://example.test/ok") 200 none none "hi" 0).title
      = none :=
  (fetch_page_title_left_empty (fun _ => none) (fun _ => none) (fun _ => some "hi")
      (PageRequest.mk (TabId.mk 0) (Url.mk "https://example.test/ok"))
      (TransportOutcome.ok 200 none []) 0 browserStateDefault
      (PageResponse.mk (Url.mk "https://example.test/ok") 200 none none "hi" 0)
      rfl).left

/-- C9: on a successful fetch, the response's `mime_type` is the raw
Content-Type header bytes passed through the header-decoding boundary
(`HeaderValue::to_str`): it is `some` of the decoded value exactly when the
header is present and decodes, and `none` when the header is absent or its
bytes do not decode. -/
theorem fetch_page_mime_type_capture (ft : String → Option String)
    (hdr utf8 : List Nat → Option String) (req : PageRequest) (status : Nat)
    (ct : Option (List Nat)) (bytes : List Nat) (now : Timestamp)
    (s : BrowserState) (page : PageResponse)
    (h : (fetch_page ft hdr utf8 req (TransportOutcome.ok status ct bytes) now s).fst
          = Except.ok page) :
    page.mime_type = ct.bind hdr
    ∧ (ct = none → page.mime_type = none)
    ∧ (∀ v, ct = some v → page.mime_type = hdr v) := by
  cases hu : utf8 bytes with
  | none => simp [fetch_page, hu] at h
  | some body =>
    have hp : page = PageResponse.mk req.url status (ct.bind hdr) none body now := by
      simp [fetch_page, hu] at h
      exact h.symm
    refine ⟨?_, ?_, ?_⟩
    · rw [hp]
    · intro hc
      rw [hp]
      simp [hc]
    · intro v hc
      rw [hp]
      simp [hc]

/-- Witness for C9: with a present, decodable Content-Type header the
response's mime_type is the decoded header value. -/
theorem fetch_page_mime_type_capture_witness :
    (PageResponse.mk (Url.mk "u") 200 (some "text/html") none "hi" 0).mime_type
      = some "text/html" :=
  (fetch_page_mime_type_capture (fun _ => none) (fun _ => some "text/html")
      (fun _ => some "hi") (PageRequest.mk (TabId.mk 0) (Url.mk "u")) 200
      (some [116]) [] 0 browserStateDefault
      (PageResponse.mk (Url.mk "u") 200 (some "text/html") none "hi" 0) rfl).left

/-! ### Claim theorems: title derivation -/

/-- C1: the derived title is the URL's string form when a mime type is
present and does not start with `text/html`; otherwise it is the
whitespace-trimmed first text node of the first `<title>` element, used only
when the trimmed text is non-empty; and when no title is derived,
`update_tab_after_fetch` keeps every tab's previous title unchanged. -/
theorem derive_title_matches_spec (ft : String → Option String) (page : PageResponse)
    (tab : TabId) (s : BrowserState) :
    (∀ mime, page.mime_type = some mime → strStartsWith mime "text/html" = false →
      derive_title ft page = some page.url.toStr)
    ∧ (mimeForcesUrlTitle page.mime_type = false →
        (∀ t, ft page.body = some t → strIsEmpty (strTrim t) = false →
          derive_title ft page = some (strTrim t))
        ∧ (∀ t, ft page.body = some t → strIsEmpty (strTrim t) = true →
          derive_title ft page = none)
        ∧ (ft page.body = none → derive_title ft page = none))
    ∧ (derive_title ft page = none →
        List.map TabSnapshot.title (update_tab_after_fetch ft tab page s).tabs
          = List.map TabSnapshot.title s.tabs) := by
  refine ⟨?_, ?_, ?_⟩
  · intro mime hm hsw
    simp [derive_title, mimeForcesUrlTitle, hm, hsw]
  · intro hmf
    refine ⟨?_, ?_, ?_⟩
    · intro t ht hne
      simp [derive_title, hmf, ht, Option.filter, hne]
    · intro t ht he
      simp [derive_title, hmf, ht, Option.filter, he]
    · intro ht
      simp [derive_title, hmf, ht]
  · intro hnone
    exact updateFirst_map_title _ _ (fun x => by simp [hnone]) s.tabs

/-- Witness for C1: with mime `text/html` and first title text
`"  Example  "` the derived title is `Example`. -/
theorem derive_title_matches_spec_witness :
    derive_title (fun _ => some "  Example  ")
      (PageResponse.mk (Url.mk "https://example.test/ok") 200 (some "text/html") none
        "<html><head><title>  Example  </title></head></html>" 0)
      = some "Example" := by
  have h := ((derive_title_matches_spec (fun _ => some "  Example  ")
      (PageResponse.mk (Url.mk "https://example.test/ok") 200 (some "text/html") none
        "<html><head><title>  Example  </title></head></html>" 0)
      (TabId.mk 0) browserStateDefault).right.left (by decide)).left "  Example  " rfl
      (by decide)
  exact h.trans (by decide)

/-! ### Claim theorems: registry invariant -/

/-- The C6 invariant: every tab has url and last_loaded either both unset or
both set. -/
def urlTimeConsistent (s : BrowserState) : Prop :=
  ∀ snap ∈ s.tabs, snap.url.isSome = snap.last_loaded.isSome

/-- One atomic, lock-held mutation of the registry state: a `create_tab`, a
(read-only) `snapshot_tabs`, or a whole `fetch_page` call committing its
result. -/
inductive CoreStep : BrowserState → BrowserState → Prop where
  | create (title : String) (s : BrowserState) : CoreStep s (create_tab title s).snd
  | snapshot (s : BrowserState) : CoreStep s s
  | fetch (ft : String → Option String) (hdr utf8 : List Nat → Option String)
      (req : PageRequest) (outcome : TransportOutcome) (now : Timestamp)
      (s : BrowserState) : CoreStep s (fetch_page ft hdr utf8 req outcome now s).snd

theorem coreStep_preserves_urlTimeConsistent (s s' : BrowserState)
    (hs : urlTimeConsistent s) (hstep : CoreStep s s') : urlTimeConsistent s' := by
  cases hstep with
  | create title s =>
    intro snap hmem
    simp only [create_tab, TabId.next] at hmem
    rcases List.mem_append.mp hmem with h | h
    · exact hs snap h
    · rw [List.mem_singleton.mp h]
      rfl
  | snapshot s => exact hs
  | fetch ft hdr utf8 req outcome now s =>
    cases outcome with
    | sendErr cause => simpa [fetch_page] using hs
    | bytesErr a b cause => simpa [fetch_page] using hs
    | ok status ct bytes =>
      cases hu : utf8 bytes with
      | none => simpa [fetch_page, hu] using hs
      | some body =>
        intro snap hmem
        simp only [fetch_page, hu, update_tab_after_fetch] at hmem
        rcases mem_updateFirst _ _ _ _ hmem with h | ⟨y, hy, hpy, hxy⟩
        · exact hs snap h
        · rw [hxy]
          rfl

/-- C6: in every state reachable from the initial registry through the core
operations (`create_tab`, `snapshot_tabs`, a `fetch_page` commit), every
tab's url and last_loaded are either both unset or both set; each operation
is one atomic mutation of the locked state, so no snapshot observes a
half-updated tab. -/
theorem reachable_url_last_loaded_consistent (s : BrowserState)
    (h : Relation.ReflTransGen CoreStep browserStateDefault s) :
    urlTimeConsistent s := by
  induction h with
  | refl =>
    intro snap hmem
    simp [browserStateDefault] at hmem
  | tail hab hbc ih => exact coreStep_preserves_urlTimeConsistent _ _ ih hbc

/-- Witness for C6: the invariant holds in the concrete state reached by
creating a tab and then committing a successful fetch for it. -/
theorem reachable_url_last_loaded_consistent_witness :
    urlTimeConsistent
      (fetch_page (fun _ => none) (fun _ => none) (fun _ => some "hi")
        (PageRequest.mk (TabId.mk 0) (Url.mk "https://example.test/ok"))
        (TransportOutcome.ok 200 none []) 7
        (create_tab "New Tab" browserStateDefault).snd).snd :=
  reachable_url_last_loaded_consistent _
    (Relation.ReflTransGen.tail
      (Relation.ReflTransGen.single (CoreStep.create "New Tab" browserStateDefault))
      (CoreStep.fetch (fun _ => none) (fun _ => none) (fun _ => some "hi")
        (PageRequest.mk (TabId.mk 0) (Url.mk "https://example.test/ok"))
        (TransportOutcome.ok 200 none []) 7
        (create_tab "New Tab" browserStateDefault).snd))

/-! ### Claim theorems: command runtime loop -/

/-- Discriminator for the `Shutdown` command. -/
def isShutdown : RuntimeCommand → Bool
  | RuntimeCommand.Navigate _ => false
  | RuntimeCommand.Shutdown => true

/-- The request carried by a `Navigate` command, if any. -/
def navRequest : RuntimeCommand → Option PageRequest
  | RuntimeCommand.Navigate req => some req
  | RuntimeCommand.Shutdown => none

theorem runLoop_requests_in_order (ft : String → Option String)
    (hdr utf8 : List Nat → Option String)
    (net : PageRequest → TransportOutcome × Timestamp) (s : BrowserState)
    (q : List RuntimeCommand) :
    (runLoop ft hdr utf8 net s q).fst.map Prod.fst
      = (q.takeWhile (fun c => !(isShutdown c))).filterMap navRequest := by
  induction q generalizing s with
  | nil => rfl
  | cons c rest ih =>
    cases c with
    | Navigate req =>
      simp [runLoop, isShutdown, navRequest, List.takeWhile_cons, List.filterMap_cons, ih]
    | Shutdown =>
      simp [runLoop, isShutdown, List.takeWhile_cons]

theorem runLoop_shutdown_stops (ft : String → Option String)
    (hdr utf8 : List Nat → Option String)
    (net : PageRequest → TransportOutcome × Timestamp) (s : BrowserState)
    (q₁ q₂ : List RuntimeCommand) :
    runLoop ft hdr utf8 net s (q₁ ++ RuntimeCommand.Shutdown :: q₂)
      = runLoop ft hdr utf8 net s (q₁ ++ [RuntimeCommand.Shutdown]) := by
  induction q₁ generalizing s with
  | nil => rfl
  | cons c rest ih =>
    cases c with
    | Navigate req => simp [List.cons_append, runLoop, ih]
    | Shutdown => rfl

theorem runLoop_append_no_shutdown (ft : String → Option String)
    (hdr utf8 : List Nat → Option String)
    (net : PageRequest → TransportOutcome × Timestamp) (s : BrowserState)
    (q₁ q₂ : List RuntimeCommand) (h : ∀ c ∈ q₁, isShutdown c = false) :
    runLoop ft hdr utf8 net s (q₁ ++ q₂)
      = ((runLoop ft hdr utf8 net s q₁).fst
            ++ (runLoop ft hdr utf8 net (runLoop ft hdr utf8 net s q₁).snd q₂).fst,
         (runLoop ft hdr utf8 net (runLoop ft hdr utf8 net s q₁).snd q₂).snd) := by
  induction q₁ generalizing s with
  | nil => simp [runLoop]
  | cons c rest ih =>
    cases c with
    | Navigate req =>
      have hrest : ∀ c ∈ rest, isShutdown c = false :=
        fun c hc => h c (List.mem_cons_of_mem _ hc)
      simp [List.cons_append, runLoop, ih _ hrest]
    | Shutdown =>
      exact absurd (h _ (List.mem_cons_self _ _)) (by simp [isShutdown])

/-- C7: the supervisor loop dequeues commands strictly in enqueue order and,
as a single sequential consumer, awaits each Navigate's fetch to completion
(threading the registry state through the fetches in submission order) before
dequeuing the next command; the first `Shutdown` makes the loop exit at once,
so commands enqueued after it are never processed. -/
theorem runLoop_fifo_serialized_shutdown (ft : String → Option String)
    (hdr utf8 : List Nat → Option String)
    (net : PageRequest → TransportOutcome × Timestamp) (s : BrowserState)
    (q q₁ q₂ : List RuntimeCommand) (h : ∀ c ∈ q₁, isShutdown c = false) :
    ((runLoop ft hdr utf8 net s q).fst.map Prod.fst
      = (q.takeWhile (fun c => !(isShutdown c))).filterMap navRequest)
    ∧ (runLoop ft hdr utf8 net s (q₁ ++ RuntimeCommand.Shutdown :: q₂)
        = runLoop ft hdr utf8 net s (q₁ ++ [RuntimeCommand.Shutdown]))
    ∧ (runLoop ft hdr utf8 net s (q₁ ++ q₂)
        = ((runLoop ft hdr utf8 net s q₁).fst
              ++ (runLoop ft hdr utf8 net (runLoop ft hdr utf8 net s q₁).snd q₂).fst,
           (runLoop ft hdr utf8 net (runLoop ft hdr utf8 net s q₁).snd q₂).snd)) :=
  ⟨runLoop_requests_in_order ft hdr utf8 net s q,
   runLoop_shutdown_stops ft hdr utf8 net s q₁ q₂,
   runLoop_append_no_shutdown ft hdr utf8 net s q₁ q₂ h⟩

/-- Witness for C7: on a concrete queue `[Navigate a, Shutdown, Navigate b]`
only the first navigation is executed. -/
theorem runLoop_fifo_serialized_shutdown_witness :
    (runLoop (fun _ => none) (fun _ => none) (fun _ => some "hi")
        (fun _ => (TransportOutcome.ok 200 none [], 0)) browserStateDefault
        [RuntimeCommand.Navigate (PageRequest.mk (TabId.mk 0) (Url.mk "a")),
         RuntimeCommand.Shutdown,
         RuntimeCommand.Navigate (PageRequest.mk (TabId.mk 1) (Url.mk "b"))]).fst.map Prod.fst
      = [PageRequest.mk (TabId.mk 0) (Url.mk "a")] :=
  (runLoop_fifo_serialized_shutdown (fun _ => none) (fun _ => none) (fun _ => some "hi")
      (fun _ => (TransportOutcome.ok 200 none [], 0)) browserStateDefault
      [RuntimeCommand.Navigate (PageRequest.mk (TabId.mk 0) (Url.mk "a")),
       RuntimeCommand.Shutdown,
       RuntimeCommand.Navigate (PageRequest.mk (TabId.mk 1) (Url.mk "b"))]
      [RuntimeCommand.Navigate (PageRequest.mk (TabId.mk 0) (Url.mk "a"))]
      [RuntimeCommand.Navigate (PageRequest.mk (TabId.mk 1) (Url.mk "b"))]
      (by simp [isShutdown])).left

/-! ### Claim theorems: tab id allocation -/

theorem runCreates_ids_mod (titles : List String) (c : Nat) (tabs : List TabSnapshot)
    (hc : c < U64_MOD) :
    (runCreates titles (BrowserState.mk c tabs)).fst
      = (List.range titles.length).map (fun k => TabId.mk ((c + k) % U64_MOD)) := by
  induction titles generalizing c tabs with
  | nil => rfl
  | cons t ts ih =>
    have h1 : (c + 1) % U64_MOD < U64_MOD := Nat.mod_lt _ (by decide)
    show TabId.mk c :: (runCreates ts (BrowserState.mk ((c + 1) % U64_MOD)
        (tabs ++ [TabSnapshot.mk (TabId.mk c) t none none]))).fst = _
    rw [ih ((c + 1) % U64_MOD) _ h1]
    rw [List.length_cons, List.range_succ_eq_map, List.map_cons, List.map_map]
    congr 1
    · rw [Nat.add_zero, Nat.mod_eq_of_lt hc]
    · apply List.map_congr_left
      intro k _
      simp only [Function.comp]
      rw [Nat.mod_add_mod]
      have hadd : c + 1 + k = c + Nat.succ k := by omega
      rw [hadd]

theorem runCreates_tabs (titles : List String) (c : Nat) (tabs : List TabSnapshot) :
    (runCreates titles (BrowserState.mk c tabs)).snd.tabs
      = tabs ++ ((runCreates titles (BrowserState.mk c tabs)).fst.zip titles).map
          (fun it => TabSnapshot.mk it.fst it.snd none none) := by
  induction titles generalizing c tabs with
  | nil => simp [runCreates]
  | cons t ts ih =>
    show (runCreates ts (BrowserState.mk ((c + 1) % U64_MOD)
        (tabs ++ [TabSnapshot.mk (TabId.mk c) t none none]))).snd.tabs = _
    rw [ih]
    show _ = tabs ++ ((TabId.mk c :: (runCreates ts (BrowserState.mk ((c + 1) % U64_MOD)
        (tabs ++ [TabSnapshot.mk (TabId.mk c) t none none]))).fst).zip (t :: ts)).map
          (fun it => TabSnapshot.mk it.fst it.snd none none)
    rw [List.zip_cons_cons, List.map_cons, List.append_assoc]
    rfl

/-- C5 (amended): as long as the starting counter value plus the number of
calls stays at or below 2^64 (the u64 counter does not wrap), the TabIds
returned by a sequence of `create_tab` calls are strictly increasing in call
order — hence pairwise distinct — and each call appends exactly one new
registry entry, carrying its returned id and title and no url and no
last_loaded time. -/
theorem create_tab_ids_strictly_increasing (titles : List String) (s : BrowserState)
    (hc : s.next_tab_id + titles.length ≤ U64_MOD) :
    List.Pairwise (fun a b => a.val < b.val) (runCreates titles s).fst
    ∧ (runCreates titles s).fst.Nodup
    ∧ (runCreates titles s).snd.tabs
        = s.tabs ++ ((runCreates titles s).fst.zip titles).map
            (fun it => TabSnapshot.mk it.fst it.snd none none) := by
  obtain ⟨c, tabs⟩ := s
  cases titles with
  | nil => exact ⟨List.Pairwise.nil, List.nodup_nil, by simp [runCreates]⟩
  | cons t ts =>
    have hc2 : c + (t :: ts).length ≤ U64_MOD := hc
    have hlt : c < U64_MOD := by
      simp only [List.length_cons] at hc2
      omega
    have hids : (runCreates (t :: ts) (BrowserState.mk c tabs)).fst
        = (List.range (t :: ts).length).map (fun k => TabId.mk (c + k)) := by
      rw [runCreates_ids_mod _ _ _ hlt]
      apply List.map_congr_left
      intro k hk
      have hk2 : k < (t :: ts).length := List.mem_range.mp hk
      congr 1
      apply Nat.mod_eq_of_lt
      omega
    have hpw : List.Pairwise (fun a b => a.val < b.val)
        (runCreates (t :: ts) (BrowserState.mk c tabs)).fst := by
      rw [hids, List.pairwise_map]
      exact (List.pairwise_lt_range _).imp (fun hab => Nat.add_lt_add_left hab c)
    refine ⟨hpw, ?_, runCreates_tabs (t :: ts) c tabs⟩
    exact hpw.imp (fun hab he => absurd (he ▸ hab) (lt_irrefl _))

/-- Witness for C5 (amended): three creations from the fresh registry give
strictly increasing ids. -/
theorem create_tab_ids_strictly_increasing_witness :
    List.Pairwise (fun a b => a.val < b.val)
      (runCreates ["a", "b", "c"] browserStateDefault).fst :=
  (create_tab_ids_strictly_increasing ["a", "b", "c"] browserStateDefault
      (by decide)).left

/-- C5 counterexample: as literally stated — for every sequence of N calls —
the claim fails, because the u64 tab counter wraps: starting from the fresh
registry, a sequence of 2^64 + 1 `create_tab` calls returns ids that are not
strictly increasing (call 2^64 + 1 repeats the id 0 of the first call). -/
theorem create_tab_ids_wrap_counterexample :
    ¬ List.Pairwise (fun a b => a.val < b.val)
        (runCreates (List.replicate (U64_MOD + 1) "tab") browserStateDefault).fst := by
  intro hpw
  have hids : (runCreates (List.replicate (U64_MOD + 1) "tab") browserStateDefault).fst
      = (List.range (U64_MOD + 1)).map (fun k => TabId.mk ((0 + k) % U64_MOD)) := by
    have h := runCreates_ids_mod (List.replicate (U64_MOD + 1) "tab") 0 [] (by decide)
    rw [List.length_replicate] at h
    exact h
  rw [hids, List.pairwise_iff_getElem] at hpw
  have hlen : ((List.range (U64_MOD + 1)).map
      (fun k => TabId.mk ((0 + k) % U64_MOD))).length = U64_MOD + 1 := by
    simp
  have h0 : 0 < ((List.range (U64_MOD + 1)).map
      (fun k => TabId.mk ((0 + k) % U64_MOD))).length := by
    rw [hlen]; omega
  have hU : U64_MOD < ((List.range (U64_MOD + 1)).map
      (fun k => TabId.mk ((0 + k) % U64_MOD))).length := by
    rw [hlen]; omega
  have hcontra := hpw 0 U64_MOD h0 hU (by decide)
  simp only [List.getElem_map, List.getElem_range, Nat.zero_add, Nat.add_zero,
    Nat.mod_self] at hcontra
  have : (0 : Nat) % U64_MOD = 0 := Nat.zero_mod _
  rw [this] at hcontra
  exact lt_irrefl _ hcontra
